import Mathlib

/-!
Verification development for a pair of Flask relay services
(src/gh_interacter/gh_interacter.py and src/gl_interacter/gl_interacter.py).

Modelling conventions (shallow embedding):
- JSON values are the inductive JValue below; Python None and JSON null
  are both JValue.null.
- Query parameters and JSON-body fields arrive as Option String
  (none = absent); Python truthiness of such a value is the falsy test below.
- An upstream HTTP exchange is modelled by an oracle of type Upstream,
  a function from the issued request (method, url, headers) to a response
  carrying the status code, the parsed JSON body and the raw text body.
  Request bodies of POST calls are determined by the recorded url/headers
  in this program, so they are not part of the Call record.
- Each handler returns a HandlerResult: the outcome (a Flask jsonify
  response with status, a Flask abort, or an uncaught Python exception)
  together with the list of upstream calls issued, in order.
- os.environ values are Option String fields of the per-service Env.
  f-string interpolation of a possibly-None value is ostr (None prints
  as the four characters None, exactly as Python renders it).
-/

inductive JValue where
  | null : JValue
  | bool : Bool → JValue
  | num : Int → JValue
  | str : String → JValue
  | arr : List JValue → JValue
  | obj : List (String × JValue) → JValue

/-- Python dict lookup on a parsed JSON object: some v when the key is
present (a JSON null maps to some JValue.null), none when absent. -/
def jGet : List (String × JValue) → String → Option JValue
  | [], _ => none
  | (k, v) :: rest, key => if k = key then some v else jGet rest key

/-- Python equality test of a JSON value against a string literal. -/
def isStrEq (j : JValue) (s : String) : Bool :=
  match j with
  | .str t => t == s
  | _ => false

/-- Python falsiness of an optional request parameter: not x is true
exactly when the parameter is absent or the empty string. -/
def falsy : Option String → Bool
  | none => true
  | some s => s == ""

/-- f-string rendering of a possibly-absent environment or request value:
Python prints None for an absent value. -/
def ostr : Option String → String
  | none => "None"
  | some s => s

/-- Python truthiness of a JSON value. -/
def pyTruthy : JValue → Bool
  | .null => false
  | .bool b => b
  | .num n => n != 0
  | .str s => s != ""
  | .arr xs => !xs.isEmpty
  | .obj fs => !fs.isEmpty

/-- str() of a JSON value as used in f-string interpolation. Every claim
exercises this only on JValue.str; the container cases are summarised. -/
def pyRepr : JValue → String
  | .str s => s
  | .num n => toString n
  | .bool true => "True"
  | .bool false => "False"
  | .null => "None"
  | .arr _ => "[...]"
  | .obj _ => "\x7b...\x7d"

/-- The uniform error body jsonify produces at the validation and
status-check return sites: a code/message pair. -/
def errObj (code : Int) (msg : String) : JValue :=
  .obj [("code", .num code), ("message", .str msg)]

/-- An upstream HTTP request as issued by requests.get / requests.post. -/
structure Call where
  method : String
  url : String
  headers : List (String × String)

/-- The upstream response: status code, parsed JSON body (responses whose
body a handler parses are modelled as already-parsed JSON), raw text. -/
structure UpstreamResp where
  status : Nat
  json : JValue
  text : String

/-- The upstream world: a deterministic oracle from request to response. -/
def Upstream : Type := Call → UpstreamResp

/-- Outcome of one request: a jsonify response with an HTTP status, a
Flask abort (non-JSON error page), or an uncaught Python exception. -/
inductive Outcome where
  | resp : Nat → JValue → Outcome
  | abort : Nat → Outcome
  | raise : String → Outcome

/-- A handler run: the outcome plus the upstream calls issued, in order. -/
structure HandlerResult where
  out : Outcome
  calls : List Call

/-- An inbound HTTP request: the X-Api-Key header and a lookup for query
parameters / JSON body fields (none = absent). -/
structure Request where
  xApiKey : Option String
  param : String → Option String

/-- The guard condition of the require_api_key decorator, common to both
services: the header must be present, truthy, and equal to the configured
RHINO_API_KEY (a string never equals Python None, so an unset key can
never match). -/
def apiKeyOk (secret : Option String) (header : Option String) : Bool :=
  match header with
  | none => false
  | some h => h != "" && (some h == secret)

/-- Status code returned by an outcome, if it is a jsonify response. -/
def respStatus : Outcome → Option Nat
  | .resp s _ => some s
  | _ => none

/-- str.split on a one-character separator, on the character list of the
string: always one more piece than occurrences of the separator, exactly
as Python splits (the empty string yields one empty piece). -/
def pySplit (sep : Char) : List Char → List (List Char)
  | [] => [[]]
  | c :: rest =>
    match pySplit sep rest with
    | piece :: pieces =>
      if c == sep then [] :: piece :: pieces else (c :: piece) :: pieces
    | [] => [[c]]

/-! Base64 decoding as performed by base64.b64decode in its default
(non-validating) mode: characters outside the base64 alphabet and the
padding character are discarded, then the remaining characters are decoded
in groups of four with optional trailing padding; a malformed remainder
raises binascii.Error (modelled as none). -/

/-- Value of one base64 alphabet character. -/
def b64CharVal (c : Char) : Option Nat :=
  if 'A' ≤ c ∧ c ≤ 'Z' then some (c.toNat - 65)
  else if 'a' ≤ c ∧ c ≤ 'z' then some (c.toNat - 71)
  else if '0' ≤ c ∧ c ≤ '9' then some (c.toNat + 4)
  else if c = '+' then some 62
  else if c = '/' then some 63
  else none

/-- Keep only alphabet characters and padding, as the non-validating
decoder does before the padding check. -/
def b64Filter (s : String) : List Char :=
  s.data.filter (fun c => (b64CharVal c).isSome || c = '=')

/-- Decode filtered base64 characters in groups of four into bytes. -/
def b64Groups : List Char → Option (List Nat)
  | [] => some []
  | c0 :: c1 :: c2 :: c3 :: rest =>
    match b64CharVal c0, b64CharVal c1 with
    | some v0, some v1 =>
      if c2 = '=' then
        if c3 = '=' ∧ rest = [] then some [v0 * 4 + v1 / 16]
        else none
      else
        match b64CharVal c2 with
        | some v2 =>
          if c3 = '=' then
            if rest = [] then some [v0 * 4 + v1 / 16, (v1 % 16) * 16 + v2 / 4]
            else none
          else
            match b64CharVal c3 with
            | some v3 =>
              (b64Groups rest).map
                (fun bs => (v0 * 4 + v1 / 16) :: ((v1 % 16) * 16 + v2 / 4) ::
                           ((v2 % 4) * 64 + v3) :: bs)
            | none => none
        | none => none
    | _, _ => none
  | _ => none

/-- base64.b64decode on a str payload: some bytes, or none for the raised
binascii.Error. -/
def b64decode (s : String) : Option (List Nat) :=
  b64Groups (b64Filter s)

/-- A UTF-8 continuation byte. -/
def contOk (b : Nat) : Bool := 128 ≤ b && b ≤ 191

/-- Strict UTF-8 decoding of a byte list into code points, as performed by
bytes.decode with the utf-8 codec: rejects stray continuation bytes,
overlong encodings, surrogate code points and values above U+10FFFF. -/
def utf8Decode : List Nat → Option (List Nat)
  | [] => some []
  | b0 :: rest =>
    if b0 < 128 then (utf8Decode rest).map (fun cps => b0 :: cps)
    else if b0 < 194 then none
    else if b0 < 224 then
      match rest with
      | b1 :: rest1 =>
        if contOk b1 then
          (utf8Decode rest1).map (fun cps => ((b0 - 192) * 64 + (b1 - 128)) :: cps)
        else none
      | [] => none
    else if b0 < 240 then
      match rest with
      | b1 :: b2 :: rest2 =>
        if contOk b1 && contOk b2 then
          let cp := (b0 - 224) * 4096 + (b1 - 128) * 64 + (b2 - 128)
          if cp < 2048 then none
          else if 55296 ≤ cp && cp ≤ 57343 then none
          else (utf8Decode rest2).map (fun cps => cp :: cps)
        else none
      | _ => none
    else if b0 < 245 then
      match rest with
      | b1 :: b2 :: b3 :: rest3 =>
        if contOk b1 && contOk b2 && contOk b3 then
          let cp := (b0 - 240) * 262144 + (b1 - 128) * 4096 + (b2 - 128) * 64 + (b3 - 128)
          if cp < 65536 then none
          else if cp > 1114111 then none
          else (utf8Decode rest3).map (fun cps => cp :: cps)
        else none
      | _ => none
    else none

/-- Decoded code points rendered as a Lean string. -/
def cpsStr (cps : List Nat) : String :=
  String.mk (cps.map Char.ofNat)

/-- bytes.decode of a byte list with the utf-8 codec: the decoded text, or
none for the raised UnicodeDecodeError. -/
def utf8DecodeStr (bs : List Nat) : Option String :=
  (utf8Decode bs).map cpsStr

/-- UTF-8 encoding of one code point (used by percent-encoding). -/
def utf8EncodeChar (c : Nat) : List Nat :=
  if c < 128 then [c]
  else if c < 2048 then [192 + c / 64, 128 + c % 64]
  else if c < 65536 then [224 + c / 4096, 128 + (c / 64) % 64, 128 + c % 64]
  else [240 + c / 262144, 128 + (c / 4096) % 64, 128 + (c / 64) % 64, 128 + c % 64]

/-- Uppercase hexadecimal digit. -/
def hexDigit (n : Nat) : Char :=
  if n < 10 then Char.ofNat (48 + n) else Char.ofNat (55 + n)

/-- urllib.parse.quote_plus on one character: letters, digits and the four
always-safe marks pass through, a space becomes a plus sign, everything
else is percent-encoded byte by byte. -/
def quotePlusChar (c : Char) : String :=
  if ('A' ≤ c ∧ c ≤ 'Z') ∨ ('a' ≤ c ∧ c ≤ 'z') ∨ ('0' ≤ c ∧ c ≤ '9') ∨
     c = '_' ∨ c = '.' ∨ c = '-' ∨ c = '~' then String.mk [c]
  else if c = ' ' then "+"
  else String.join ((utf8EncodeChar c.toNat).map
    (fun b => String.mk ['%', hexDigit (b / 16), hexDigit (b % 16)]))

/-- urllib.parse.quote_plus. -/
def quote_plus (s : String) : String :=
  String.join (s.data.map quotePlusChar)

/-! Shared loop of both repo_structure handlers: iterate the tree entries,
sending tree-typed paths to directories and blob-typed paths to files by
appending in iteration order; a non-dict entry raises TypeError and a dict
entry without the accessed key raises KeyError. -/

/-- The partition loop over tree entries (directories, files). -/
def treeLoop : List JValue → Except String (List JValue × List JValue)
  | [] => .ok ([], [])
  | .obj fields :: rest =>
    match jGet fields "type" with
    | none => .error "KeyError"
    | some t =>
      if isStrEq t "tree" then
        match jGet fields "path" with
        | none => .error "KeyError"
        | some p => (treeLoop rest).map (fun dsfs => (p :: dsfs.1, dsfs.2))
      else if isStrEq t "blob" then
        match jGet fields "path" with
        | none => .error "KeyError"
        | some p => (treeLoop rest).map (fun dsfs => (dsfs.1, p :: dsfs.2))
      else treeLoop rest
  | _ :: _ => .error "TypeError"

/-- Iterating a parsed JSON value as Python for-in does: a list iterates
its elements; an empty string or empty dict iterates nothing (any non-dict
element the loop body then subscripts raises, which treeLoop reports); a
non-empty string or dict yields string items whose subscripting raises;
other scalars are not iterable. -/
def iterTree : JValue → Except String (List JValue × List JValue)
  | .arr items => treeLoop items
  | .str s => if s == "" then .ok ([], []) else .error "TypeError"
  | .obj fs => if fs.isEmpty then .ok ([], []) else .error "TypeError"
  | _ => .error "TypeError"

namespace GH

/-- Process environment of the GitHub-style service. -/
structure Env where
  RHINO_API_KEY : Option String
  GITHUB_TOKEN : Option String

/-- Authorization header attached to every GitHub API call. -/
def auth (env : Env) : List (String × String) :=
  [("Authorization", "token " ++ ostr env.GITHUB_TOKEN)]

/-- Headers of the diff request of get_pr_content. -/
def diffHeaders (env : Env) : List (String × String) :=
  [("Authorization", "token " ++ ostr env.GITHUB_TOKEN),
   ("Accept", "application/vnd.github.v3.diff")]

/-- Headers of the create-comment POST of submit_pr_comment. -/
def commentHeaders (token : String) : List (String × String) :=
  [("Authorization", "token " ++ token),
   ("Accept", "application/vnd.github.v3+json")]

/-- The branch-probe request of check_branch_exists. -/
def branchCall (env : Env) (repo_full_name : Option String) (branch_name : String) : Call :=
  { method := "GET",
    url := "https://api.github.com/repos/" ++ ostr repo_full_name ++ "/branches/" ++ branch_name,
    headers := auth env }

/-- check_branch_exists: probe the branch lookup URL and report HTTP 200. -/
def check_branch_exists (env : Env) (upstream : Upstream)
    (repo_full_name : Option String) (branch_name : String) : Bool :=
  (upstream (branchCall env repo_full_name branch_name)).status == 200

/-- The pull-request metadata request of get_pr_content. -/
def prCall (env : Env) (repo_full_name pr_number : Option String) : Call :=
  { method := "GET",
    url := "https://api.github.com/repos/" ++ ostr repo_full_name ++ "/pulls/" ++ ostr pr_number,
    headers := auth env }

/-- get_pr_content after the parameter check and both upstream calls
succeeded: reshape of the metadata JSON plus the raw diff text. -/
def prReshape (meta : JValue) (diffText : String) : Outcome :=
  match meta with
  | .obj f =>
    match (jGet f "head").getD (.obj []) with
    | .obj hf =>
      match (jGet hf "repo").getD (.obj []) with
      | .obj rf =>
        .resp 200 (.obj [("title", (jGet f "title").getD .null),
                         ("body", (jGet f "body").getD .null),
                         ("source_branch", (jGet hf "ref").getD .null),
                         ("source_repo", (jGet rf "full_name").getD .null),
                         ("code_changes", .str diffText)])
      | _ => .raise "AttributeError"
    | _ => .raise "AttributeError"
  | _ => .raise "AttributeError"

/-- Handler of GET /pr_content. -/
def get_pr_content (env : Env) (upstream : Upstream)
    (repo_full_name pr_number : Option String) : HandlerResult :=
  if falsy repo_full_name || falsy pr_number then
    ⟨.resp 400 (errObj 400 "Missing repo_full_name or pr_number"), []⟩
  else
    let c1 := prCall env repo_full_name pr_number
    let r1 := upstream c1
    if r1.status == 404 then
      ⟨.resp 404 (errObj 404 "Pull Request not found"), [c1]⟩
    else if r1.status != 200 then
      ⟨.resp r1.status (errObj r1.status "Unexpected error occurred"), [c1]⟩
    else
      let c2 : Call := { c1 with headers := diffHeaders env }
      let r2 := upstream c2
      if r2.status != 200 then
        ⟨.resp r2.status (errObj r2.status "Failed to get PR diff"), [c1, c2]⟩
      else
        ⟨prReshape r1.json r2.text, [c1, c2]⟩

/-- The file-contents request of get_file_content. -/
def fileCall (env : Env) (repo_full_name file_path : Option String) (branch : String) : Call :=
  { method := "GET",
    url := "https://api.github.com/repos/" ++ ostr repo_full_name ++ "/contents/" ++
           ostr file_path ++ "?ref=" ++ branch,
    headers := auth env }

/-- get_file_content from the parameter check on, once the effective
branch is fixed; calls0 records branch probes already issued. -/
def fileFetch (env : Env) (upstream : Upstream)
    (repo_full_name file_path : Option String) (branch : String)
    (calls0 : List Call) : HandlerResult :=
  if falsy repo_full_name || falsy file_path then
    ⟨.resp 400 (errObj 400 "Missing repo_full_name or file_path"), calls0⟩
  else
    let c := fileCall env repo_full_name file_path branch
    let r := upstream c
    if r.status != 200 then
      ⟨.resp r.status (errObj r.status
        ("Failed to fetch file content from " ++ branch ++ " branch")), calls0 ++ [c]⟩
    else
      match r.json with
      | .obj fields =>
        let enc := (jGet fields "content").getD .null
        match enc with
        | .null => ⟨.resp 500 (errObj 500 "No content found in the response"), calls0 ++ [c]⟩
        | .str payload =>
          match b64decode payload with
          | none => ⟨.raise "binascii.Error", calls0 ++ [c]⟩
          | some bytes =>
            match utf8DecodeStr bytes with
            | some text => ⟨.resp 200 (.obj [("content", .str text)]), calls0 ++ [c]⟩
            | none =>
              ⟨.resp 500 (.obj [("error", .str ("无法显示 " ++ ostr file_path ++
                " 的内容，这可能是一个二进制文件"))]), calls0 ++ [c]⟩
        | _ => ⟨.raise "TypeError", calls0 ++ [c]⟩
      | _ => ⟨.raise "AttributeError", calls0 ++ [c]⟩

/-- Handler of GET /file_content. Note the source resolves the branch
before validating repo_full_name and file_path. -/
def get_file_content (env : Env) (upstream : Upstream)
    (repo_full_name file_path branch_name : Option String) : HandlerResult :=
  if falsy branch_name then
    if check_branch_exists env upstream repo_full_name "main" then
      fileFetch env upstream repo_full_name file_path "main"
        [branchCall env repo_full_name "main"]
    else if check_branch_exists env upstream repo_full_name "master" then
      fileFetch env upstream repo_full_name file_path "master"
        [branchCall env repo_full_name "main", branchCall env repo_full_name "master"]
    else
      ⟨.resp 404 (errObj 404 "No main or master branch found"),
       [branchCall env repo_full_name "main", branchCall env repo_full_name "master"]⟩
  else
    fileFetch env upstream repo_full_name file_path (ostr branch_name) []

/-- The issue lookup request of get_issue_info. -/
def issueCall (env : Env) (repo_full_name issue_number : Option String) : Call :=
  { method := "GET",
    url := "https://api.github.com/repos/" ++ ostr repo_full_name ++ "/issues/" ++ ostr issue_number,
    headers := auth env }

/-- Handler of GET /issue_info. -/
def get_issue_info (env : Env) (upstream : Upstream)
    (repo_full_name issue_number : Option String) : HandlerResult :=
  if falsy repo_full_name || falsy issue_number then
    ⟨.resp 400 (errObj 400 "Missing repo_full_name or issue_number"), []⟩
  else
    let c := issueCall env repo_full_name issue_number
    let r := upstream c
    if r.status != 200 then
      ⟨.resp r.status (errObj r.status "Failed to fetch issue info"), [c]⟩
    else
      match r.json with
      | .obj f =>
        ⟨.resp 200 (.obj [("title", (jGet f "title").getD .null),
                          ("description", (jGet f "body").getD .null)]), [c]⟩
      | _ => ⟨.raise "AttributeError", [c]⟩

/-- The create-comment POST of submit_pr_comment. -/
def commentCall (token : String) (repo_full_name pr_number : Option String) : Call :=
  { method := "POST",
    url := "https://api.github.com/repos/" ++ ostr repo_full_name ++ "/issues/" ++
           ostr pr_number ++ "/comments",
    headers := commentHeaders token }

/-- Handler of POST /submit_pr_comment. The token is checked first. -/
def submit_pr_comment (env : Env) (upstream : Upstream)
    (repo_full_name pr_number comment_body : Option String) : HandlerResult :=
  if falsy env.GITHUB_TOKEN then
    ⟨.resp 401 (errObj 401 "GitHub access token is not set"), []⟩
  else
    if falsy repo_full_name || falsy pr_number || falsy comment_body then
      ⟨.resp 400 (errObj 400 "Missing required parameters"), []⟩
    else
      let c := commentCall (ostr env.GITHUB_TOKEN) repo_full_name pr_number
      let r := upstream c
      if r.status != 201 then
        ⟨.resp r.status (errObj r.status "Failed to create comment"), [c]⟩
      else
        ⟨.resp 201 (.obj [("message", .str "Comment created successfully")]), [c]⟩

/-- The latest-commit request of get_repo_structure. -/
def commitsCall (env : Env) (repo_full_name : Option String) (branch : String) : Call :=
  { method := "GET",
    url := "https://api.github.com/repos/" ++ ostr repo_full_name ++ "/commits/" ++ branch,
    headers := auth env }

/-- The recursive-tree request of get_repo_structure. -/
def treesCall (env : Env) (repo_full_name : Option String) (sha : String) : Call :=
  { method := "GET",
    url := "https://api.github.com/repos/" ++ ostr repo_full_name ++ "/git/trees/" ++
           sha ++ "?recursive=1",
    headers := auth env }

/-- get_repo_structure from the repo_full_name validation on, once the
effective branch is fixed; calls0 records branch probes already issued. -/
def repoFetch (env : Env) (upstream : Upstream)
    (repo_full_name : Option String) (branch : String)
    (calls0 : List Call) : HandlerResult :=
  if falsy repo_full_name || !((ostr repo_full_name).data.contains '/') ||
     (pySplit '/' (ostr repo_full_name).data).length != 2 then
    ⟨.resp 400 (errObj 400 "Invalid or missing repo_full_name"), calls0⟩
  else
    let c1 := commitsCall env repo_full_name branch
    let r1 := upstream c1
    if r1.status != 200 then
      ⟨.resp r1.status (.obj [("code", .num r1.status),
        ("message", .str "Failed to get latest commit"),
        ("details", r1.json)]), calls0 ++ [c1]⟩
    else
      match r1.json with
      | .obj f =>
        let sha := (jGet f "sha").getD .null
        if !pyTruthy sha then
          ⟨.resp 404 (errObj 404 "Latest commit SHA not found"), calls0 ++ [c1]⟩
        else
          let c2 := treesCall env repo_full_name (pyRepr sha)
          let r2 := upstream c2
          if r2.status != 200 then
            ⟨.resp r2.status (.obj [("code", .num r2.status),
              ("message", .str "Failed to get repository tree"),
              ("details", r2.json)]), calls0 ++ [c1, c2]⟩
          else
            match r2.json with
            | .obj f2 =>
              match iterTree ((jGet f2 "tree").getD (.arr [])) with
              | .ok (ds, fs) =>
                ⟨.resp 200 (.obj [("directories", .arr ds), ("files", .arr fs)]),
                 calls0 ++ [c1, c2]⟩
              | .error e => ⟨.raise e, calls0 ++ [c1, c2]⟩
            | _ => ⟨.raise "AttributeError", calls0 ++ [c1, c2]⟩
      | _ => ⟨.raise "AttributeError", calls0 ++ [c1]⟩

/-- Handler of GET /repo_structure. Note the source resolves the branch
before validating repo_full_name. -/
def get_repo_structure (env : Env) (upstream : Upstream)
    (repo_full_name branch_name : Option String) : HandlerResult :=
  if falsy branch_name then
    if check_branch_exists env upstream repo_full_name "main" then
      repoFetch env upstream repo_full_name "main"
        [branchCall env repo_full_name "main"]
    else if check_branch_exists env upstream repo_full_name "master" then
      repoFetch env upstream repo_full_name "master"
        [branchCall env repo_full_name "main", branchCall env repo_full_name "master"]
    else
      ⟨.resp 404 (errObj 404 "No main or master branch found"),
       [branchCall env repo_full_name "main", branchCall env repo_full_name "master"]⟩
  else
    repoFetch env upstream repo_full_name (ostr branch_name) []

/-- The five routes of the GitHub-style service. -/
inductive Route where
  | pr_content | file_content | issue_info | submit_pr_comment | repo_structure

/-- Route dispatch: which handler runs, with its parameters pulled from
the request, once the auth gate has passed. -/
def dispatch (env : Env) (upstream : Upstream) (route : Route) (req : Request) : HandlerResult :=
  match route with
  | .pr_content =>
    get_pr_content env upstream (req.param "repo_full_name") (req.param "pr_number")
  | .file_content =>
    get_file_content env upstream (req.param "repo_full_name") (req.param "file_path")
      (req.param "branch_name")
  | .issue_info =>
    get_issue_info env upstream (req.param "repo_full_name") (req.param "issue_number")
  | .submit_pr_comment =>
    submit_pr_comment env upstream (req.param "repo_full_name") (req.param "pr_number")
      (req.param "comment_body")
  | .repo_structure =>
    get_repo_structure env upstream (req.param "repo_full_name") (req.param "branch_name")

/-- The full service: the require_api_key gate wraps every route; on
failure Flask abort(401) ends the request with no upstream call. -/
def service (env : Env) (upstream : Upstream) (route : Route) (req : Request) : HandlerResult :=
  if apiKeyOk env.RHINO_API_KEY req.xApiKey then dispatch env upstream route req
  else ⟨.abort 401, []⟩

end GH

namespace Gitlab

/-- Process environment of the GitLab-style service. -/
structure Env where
  RHINO_API_KEY : Option String
  GITLAB_PRIVATE_TOKEN : Option String
  GITLAB_DOMAIN : Option String

/-- Effective GitLab domain: the environment value or the default. -/
def domain (env : Env) : String :=
  env.GITLAB_DOMAIN.getD "gitlab.com"

/-- Common prefix of every GitLab API URL built by the service. -/
def api (env : Env) : String :=
  "https://" ++ domain env ++ "/api/v4/projects/"

/-- Private-Token header attached to every GitLab API call. -/
def auth (env : Env) : List (String × String) :=
  [("Private-Token", ostr env.GITLAB_PRIVATE_TOKEN)]

/-- The branch-probe request of check_branch_exists. -/
def branchCall (env : Env) (project_id : String) (branch_name : String) : Call :=
  { method := "GET",
    url := api env ++ quote_plus project_id ++ "/repository/branches/" ++ branch_name,
    headers := auth env }

/-- check_branch_exists: probe the branch lookup URL and report HTTP 200. -/
def check_branch_exists (env : Env) (upstream : Upstream)
    (project_id : String) (branch_name : String) : Bool :=
  (upstream (branchCall env project_id branch_name)).status == 200

/-- The merge-request metadata request of get_mr_content. -/
def mrCall (env : Env) (project_id mr_iid : Option String) : Call :=
  { method := "GET",
    url := api env ++ quote_plus (ostr project_id) ++ "/merge_requests/" ++ ostr mr_iid,
    headers := auth env }

/-- The changes sub-resource request of get_mr_content. -/
def changesCall (env : Env) (project_id mr_iid : Option String) : Call :=
  { method := "GET",
    url := api env ++ quote_plus (ostr project_id) ++ "/merge_requests/" ++ ostr mr_iid ++ "/changes",
    headers := auth env }

/-- The list comprehension over the changes list: change.get of each
entry with empty-string default; a non-dict entry raises AttributeError. -/
def changeDiffs : List JValue → Except String (List JValue)
  | [] => .ok []
  | .obj fields :: rest =>
    (changeDiffs rest).map (fun ds => ((jGet fields "diff").getD (.str "")) :: ds)
  | _ :: _ => .error "AttributeError"

/-- Iterating the changes value as Python for-in does (see iterTree). -/
def iterChanges : JValue → Except String (List JValue)
  | .arr cs => changeDiffs cs
  | .str s => if s == "" then .ok [] else .error "AttributeError"
  | .obj fs => if fs.isEmpty then .ok [] else .error "AttributeError"
  | _ => .error "TypeError"

/-- All-strings view of a list of JSON values, as required by str.join. -/
def strList : List JValue → Option (List String)
  | [] => some []
  | .str s :: rest => (strList rest).map (fun ss => s :: ss)
  | _ :: _ => none

/-- Diff text assembled from the changes response body: extract the
changes list (empty-list default), collect each diff, join with newline
separators; any type mismatch raises. -/
def diffText (j : JValue) : Except String String :=
  match j with
  | .obj f2 =>
    match iterChanges ((jGet f2 "changes").getD (.arr [])) with
    | .error e => .error e
    | .ok ds =>
      match strList ds with
      | some ss => .ok (String.intercalate "\n" ss)
      | none => .error "TypeError"
  | _ => .error "AttributeError"

/-- Handler of GET /mr_content. -/
def get_mr_content (env : Env) (upstream : Upstream)
    (project_id mr_iid : Option String) : HandlerResult :=
  if falsy project_id || falsy mr_iid then
    ⟨.resp 400 (errObj 400 "Missing project_id or mr_iid"), []⟩
  else
    let c1 := mrCall env project_id mr_iid
    let r1 := upstream c1
    if r1.status != 200 then
      ⟨.resp r1.status (errObj r1.status "Failed to fetch MR info"), [c1]⟩
    else
      let c2 := changesCall env project_id mr_iid
      let r2 := upstream c2
      if r2.status != 200 then
        ⟨.resp r2.status (errObj r2.status "Failed to fetch MR diffs"), [c1, c2]⟩
      else
        match diffText r2.json with
        | .error e => ⟨.raise e, [c1, c2]⟩
        | .ok dt =>
          match r1.json with
          | .obj f =>
            ⟨.resp 200 (.obj [("title", (jGet f "title").getD .null),
                              ("description", (jGet f "description").getD .null),
                              ("source_branch", (jGet f "source_branch").getD .null),
                              ("target_branch", (jGet f "target_branch").getD .null),
                              ("diffs", .str dt)]), [c1, c2]⟩
          | _ => ⟨.raise "AttributeError", [c1, c2]⟩

/-- The raw-file request of get_file_content. -/
def fileCall (env : Env) (project_id file_path : Option String) (branch : String) : Call :=
  { method := "GET",
    url := api env ++ quote_plus (ostr project_id) ++ "/repository/files/" ++
           quote_plus (ostr file_path) ++ "/raw?ref=" ++ branch,
    headers := auth env }

/-- get_file_content once the effective branch is fixed; calls0 records
branch probes already issued. -/
def fileFetch (env : Env) (upstream : Upstream)
    (project_id file_path : Option String) (branch : String)
    (calls0 : List Call) : HandlerResult :=
  let c := fileCall env project_id file_path branch
  let r := upstream c
  if r.status != 200 then
    ⟨.resp r.status (errObj r.status "Failed to fetch file content"), calls0 ++ [c]⟩
  else
    ⟨.resp 200 (.obj [("content", .str r.text)]), calls0 ++ [c]⟩

/-- Handler of GET /file_content. Unlike the GitHub variant, parameters
are validated before any branch probe. -/
def get_file_content (env : Env) (upstream : Upstream)
    (project_id file_path branch_name : Option String) : HandlerResult :=
  if falsy project_id || falsy file_path then
    ⟨.resp 400 (errObj 400 "Missing project_id or file_path"), []⟩
  else if falsy branch_name then
    if check_branch_exists env upstream (ostr project_id) "main" then
      fileFetch env upstream project_id file_path "main"
        [branchCall env (ostr project_id) "main"]
    else if check_branch_exists env upstream (ostr project_id) "master" then
      fileFetch env upstream project_id file_path "master"
        [branchCall env (ostr project_id) "main", branchCall env (ostr project_id) "master"]
    else
      ⟨.resp 404 (errObj 404 "No main or master branch found"),
       [branchCall env (ostr project_id) "main", branchCall env (ostr project_id) "master"]⟩
  else
    fileFetch env upstream project_id file_path (ostr branch_name) []

/-- The issue lookup request of get_issue_info. -/
def issueCall (env : Env) (project_id issue_iid : Option String) : Call :=
  { method := "GET",
    url := api env ++ quote_plus (ostr project_id) ++ "/issues/" ++ ostr issue_iid,
    headers := auth env }

/-- Handler of GET /issue_info. -/
def get_issue_info (env : Env) (upstream : Upstream)
    (project_id issue_iid : Option String) : HandlerResult :=
  if falsy project_id || falsy issue_iid then
    ⟨.resp 400 (errObj 400 "Missing project_id or issue_iid"), []⟩
  else
    let c := issueCall env project_id issue_iid
    let r := upstream c
    if r.status != 200 then
      ⟨.resp r.status (errObj r.status "Failed to fetch issue info"), [c]⟩
    else
      match r.json with
      | .obj f =>
        ⟨.resp 200 (.obj [("title", (jGet f "title").getD .null),
                          ("description", (jGet f "description").getD .null)]), [c]⟩
      | _ => ⟨.raise "AttributeError", [c]⟩

/-- The create-note POST of submit_mr_comment. -/
def commentCall (env : Env) (token : String) (project_id mr_iid : Option String) : Call :=
  { method := "POST",
    url := api env ++ quote_plus (ostr project_id) ++ "/merge_requests/" ++
           ostr mr_iid ++ "/notes",
    headers := [("Private-Token", token), ("Content-Type", "application/json")] }

/-- Handler of POST /submit_mr_comment. The token is checked first. -/
def submit_mr_comment (env : Env) (upstream : Upstream)
    (project_id mr_iid comment_body : Option String) : HandlerResult :=
  if falsy env.GITLAB_PRIVATE_TOKEN then
    ⟨.resp 401 (errObj 401 "GitLab access token is not set"), []⟩
  else
    if falsy project_id || falsy mr_iid || falsy comment_body then
      ⟨.resp 400 (errObj 400 "Missing required parameters"), []⟩
    else
      let c := commentCall env (ostr env.GITLAB_PRIVATE_TOKEN) project_id mr_iid
      let r := upstream c
      if r.status != 201 then
        ⟨.resp r.status (errObj r.status "Failed to create comment"), [c]⟩
      else
        ⟨.resp 201 (.obj [("message", .str "Comment created successfully")]), [c]⟩

/-- The recursive-tree request of get_repo_structure. -/
def treeCall (env : Env) (project_id : Option String) (branch : String) : Call :=
  { method := "GET",
    url := api env ++ quote_plus (ostr project_id) ++ "/repository/tree?ref=" ++
           branch ++ "&recursive=true",
    headers := auth env }

/-- get_repo_structure once the effective branch is fixed; calls0 records
branch probes already issued. -/
def repoFetch (env : Env) (upstream : Upstream)
    (project_id : Option String) (branch : String)
    (calls0 : List Call) : HandlerResult :=
  let c := treeCall env project_id branch
  let r := upstream c
  if r.status != 200 then
    ⟨.resp r.status (errObj r.status "Failed to get repository structure"), calls0 ++ [c]⟩
  else
    match iterTree r.json with
    | .ok (ds, fs) =>
      ⟨.resp 200 (.obj [("directories", .arr ds), ("files", .arr fs)]), calls0 ++ [c]⟩
    | .error e => ⟨.raise e, calls0 ++ [c]⟩

/-- Handler of GET /repo_structure. project_id is validated before any
branch probe. -/
def get_repo_structure (env : Env) (upstream : Upstream)
    (project_id branch_name : Option String) : HandlerResult :=
  if falsy project_id then
    ⟨.resp 400 (errObj 400 "Missing project_id"), []⟩
  else if falsy branch_name then
    if check_branch_exists env upstream (ostr project_id) "main" then
      repoFetch env upstream project_id "main"
        [branchCall env (ostr project_id) "main"]
    else if check_branch_exists env upstream (ostr project_id) "master" then
      repoFetch env upstream project_id "master"
        [branchCall env (ostr project_id) "main", branchCall env (ostr project_id) "master"]
    else
      ⟨.resp 404 (errObj 404 "No main or master branch found"),
       [branchCall env (ostr project_id) "main", branchCall env (ostr project_id) "master"]⟩
  else
    repoFetch env upstream project_id (ostr branch_name) []

/-- The five routes of the GitLab-style service. -/
inductive Route where
  | mr_content | file_content | issue_info | submit_mr_comment | repo_structure

/-- Route dispatch once the auth gate has passed. -/
def dispatch (env : Env) (upstream : Upstream) (route : Route) (req : Request) : HandlerResult :=
  match route with
  | .mr_content =>
    get_mr_content env upstream (req.param "project_id") (req.param "mr_iid")
  | .file_content =>
    get_file_content env upstream (req.param "project_id") (req.param "file_path")
      (req.param "branch_name")
  | .issue_info =>
    get_issue_info env upstream (req.param "project_id") (req.param "issue_iid")
  | .submit_mr_comment =>
    submit_mr_comment env upstream (req.param "project_id") (req.param "mr_iid")
      (req.param "comment_body")
  | .repo_structure =>
    get_repo_structure env upstream (req.param "project_id") (req.param "branch_name")

/-- The full service: the require_api_key gate wraps every route. -/
def service (env : Env) (upstream : Upstream) (route : Route) (req : Request) : HandlerResult :=
  if apiKeyOk env.RHINO_API_KEY req.xApiKey then dispatch env upstream route req
  else ⟨.abort 401, []⟩

end Gitlab

/-! Response-shape predicates used by the NormalizedResponse invariant,
and concrete fixtures used by witnesses. -/

/-- An error object carrying the code/message pair. -/
def hasCodeMessage : JValue → Bool
  | .obj fields => (jGet fields "code").isSome && (jGet fields "message").isSome
  | _ => false

/-- The single-key error object of the binary-rejection branch of the
GitHub-style file_content handler. -/
def binError : JValue → Bool
  | .obj [("error", .str _)] => true
  | _ => false

/-- Success shape of each GitHub-style endpoint. -/
def ghSuccessShape : GH.Route → JValue → Bool
  | .pr_content, .obj [("title", _), ("body", _), ("source_branch", _),
                       ("source_repo", _), ("code_changes", _)] => true
  | .file_content, .obj [("content", _)] => true
  | .issue_info, .obj [("title", _), ("description", _)] => true
  | .submit_pr_comment, .obj [("message", _)] => true
  | .repo_structure, .obj [("directories", .arr _), ("files", .arr _)] => true
  | _, _ => false

/-- Success shape of each GitLab-style endpoint. -/
def glSuccessShape : Gitlab.Route → JValue → Bool
  | .mr_content, .obj [("title", _), ("description", _), ("source_branch", _),
                       ("target_branch", _), ("diffs", _)] => true
  | .file_content, .obj [("content", _)] => true
  | .issue_info, .obj [("title", _), ("description", _)] => true
  | .submit_mr_comment, .obj [("message", _)] => true
  | .repo_structure, .obj [("directories", .arr _), ("files", .arr _)] => true
  | _, _ => false

/-- Body discipline of a GitHub-style outcome: a jsonify response is the
route's success shape, a code/message error object, or — only on
file_content — the binary-rejection error object. -/
def ghBodyOk (route : GH.Route) : Outcome → Bool
  | .resp _ b =>
    ghSuccessShape route b || hasCodeMessage b ||
      (match route with | .file_content => binError b | _ => false)
  | _ => true

/-- Body discipline of a GitLab-style outcome: a jsonify response is the
route's success shape or a code/message error object. -/
def glBodyOk (route : Gitlab.Route) : Outcome → Bool
  | .resp _ b => glSuccessShape route b || hasCodeMessage b
  | _ => true

/-- A tree entry as delivered by the provider: a type and a path. -/
def entryObj (e : String × String) : JValue :=
  .obj [("type", .str e.1), ("path", .str e.2)]

/-- An oracle answering 404 with an empty body to every request. -/
def oracle404 : Upstream := fun _ => ⟨404, .null, ""⟩

/-- A concrete GitHub-service environment. -/
def ghEnv0 : GH.Env := ⟨some "key", some "tok"⟩

/-- A concrete GitHub-service environment with no access token. -/
def ghEnvNoTok : GH.Env := ⟨some "key", none⟩

/-- A concrete GitLab-service environment. -/
def glEnv0 : Gitlab.Env := ⟨some "key", some "tok", none⟩

/-- A concrete GitLab-service environment with no access token. -/
def glEnvNoTok : Gitlab.Env := ⟨some "key", none, none⟩

/-- A request with no header and no parameters. -/
def noReq : Request := ⟨none, fun _ => none⟩

/-- A request presenting the empty string as its X-Api-Key header. -/
def emptyKeyReq : Request := ⟨some "", fun _ => none⟩

/-- A request with the matching key but no file_content repo parameter. -/
def c1Req : Request :=
  ⟨some "key", fun k => if k = "file_path" then some "a.txt" else none⟩

/-- An oracle serving two file-content bodies: a base64 text payload and a
base64 payload whose bytes are not valid UTF-8. -/
def oracleGhFile : Upstream := fun c =>
  if c.url = "https://api.github.com/repos/o/r/contents/f.txt?ref=dev" then
    ⟨200, .obj [("content", .str "aGVsbG8=")], ""⟩
  else if c.url = "https://api.github.com/repos/o/r/contents/bin.dat?ref=dev" then
    ⟨200, .obj [("content", .str "/w==")], ""⟩
  else ⟨404, .null, ""⟩

/-- An oracle confirming only the main branch of two fixed repositories. -/
def oracleMainOnly : Upstream := fun c =>
  if c.url = "https://api.github.com/repos/o/r/branches/main" then ⟨200, .null, ""⟩
  else if c.url = "https://gitlab.com/api/v4/projects/proj/repository/branches/main" then
    ⟨200, .null, ""⟩
  else ⟨404, .null, ""⟩

/-- An oracle answering 201 to POST requests and 404 otherwise. -/
def oracle201 : Upstream := fun c =>
  if c.method = "POST" then ⟨201, .null, ""⟩ else ⟨404, .null, ""⟩

/-- A mixed tree listing with directory and file entries. -/
def treeEntries0 : List (String × String) :=
  [("tree", "src"), ("blob", "README.md"), ("blob", "src/main.py")]

/-- A tree listing containing a submodule entry of type commit. -/
def treeEntries1 : List (String × String) :=
  [("tree", "src"), ("commit", "vendor/sub"), ("blob", "README.md")]

/-- An oracle serving the repo_structure round trip for both services
with the mixed listing treeEntries0. -/
def oracleRepo0 : Upstream := fun c =>
  if c.url = "https://api.github.com/repos/o/r/commits/dev" then
    ⟨200, .obj [("sha", .str "abc")], ""⟩
  else if c.url = "https://api.github.com/repos/o/r/git/trees/abc?recursive=1" then
    ⟨200, .obj [("tree", .arr (treeEntries0.map entryObj))], ""⟩
  else if c.url = "https://gitlab.com/api/v4/projects/proj/repository/tree?ref=dev&recursive=true" then
    ⟨200, .arr (treeEntries0.map entryObj), ""⟩
  else ⟨404, .null, ""⟩

/-- An oracle serving the repo_structure round trip for both services
with the listing treeEntries1 that contains a commit entry. -/
def oracleRepo1 : Upstream := fun c =>
  if c.url = "https://api.github.com/repos/o/r/commits/dev" then
    ⟨200, .obj [("sha", .str "abc")], ""⟩
  else if c.url = "https://api.github.com/repos/o/r/git/trees/abc?recursive=1" then
    ⟨200, .obj [("tree", .arr (treeEntries1.map entryObj))], ""⟩
  else if c.url = "https://gitlab.com/api/v4/projects/proj/repository/tree?ref=dev&recursive=true" then
    ⟨200, .arr (treeEntries1.map entryObj), ""⟩
  else ⟨404, .null, ""⟩

/-! Helper lemmas shared by the claim theorems. -/

/-- The guard rejects a missing header and any mismatched value. -/
lemma apiKeyOk_reject (secret header : Option String)
    (h : header = none ∨ ∃ v, header = some v ∧ secret ≠ some v) :
    apiKeyOk secret header = false := by
  rcases h with h | ⟨v, hv, hne⟩
  · subst h; rfl
  · subst hv
    simp [apiKeyOk]
    intro _
    exact fun h' => hne h'.symm

/-- The guard rejects everything when the secret is unset or empty. -/
lemma apiKeyOk_unset (secret header : Option String)
    (h : secret = none ∨ secret = some "") :
    apiKeyOk secret header = false := by
  cases header with
  | none => rfl
  | some v =>
    rcases h with h | h <;> subst h
    · simp [apiKeyOk]
    · by_cases hv : v = "" <;> simp [apiKeyOk, hv]

/-- Claim C2: for every route of both services, a request that lacks the
X-Api-Key header or carries a value not string-equal to the configured
shared secret is rejected with 401 by the auth gate, with zero upstream
calls and without the handler body running. -/
theorem C2_auth_gate :
    (∀ (env : GH.Env) (upstream : Upstream) (route : GH.Route) (req : Request),
      (req.xApiKey = none ∨ ∃ v, req.xApiKey = some v ∧ env.RHINO_API_KEY ≠ some v) →
      GH.service env upstream route req = ⟨.abort 401, []⟩) ∧
    (∀ (env : Gitlab.Env) (upstream : Upstream) (route : Gitlab.Route) (req : Request),
      (req.xApiKey = none ∨ ∃ v, req.xApiKey = some v ∧ env.RHINO_API_KEY ≠ some v) →
      Gitlab.service env upstream route req = ⟨.abort 401, []⟩) := by
  constructor
  · intro env upstream route req h
    simp [GH.service, apiKeyOk_reject _ _ h]
  · intro env upstream route req h
    simp [Gitlab.service, apiKeyOk_reject _ _ h]

/-- Witness for C2 at a concrete headerless request. -/
theorem C2_auth_gate_witness :
    GH.service ghEnv0 oracle404 GH.Route.pr_content noReq = ⟨.abort 401, []⟩ :=
  C2_auth_gate.1 ghEnv0 oracle404 GH.Route.pr_content noReq (Or.inl rfl)

/-- Claim C9: when the shared-secret environment variable is unset or the
empty string, authentication never succeeds on any route of either
service — even for a request whose header equals that unset or empty
configured value — so every request is rejected with 401 and no client
input reaches a handler body. -/
theorem C9_empty_secret :
    ∀ (secret : Option String), secret = none ∨ secret = some "" →
    (∀ (tok : Option String) (upstream : Upstream) (route : GH.Route) (req : Request),
       GH.service ⟨secret, tok⟩ upstream route req = ⟨.abort 401, []⟩) ∧
    (∀ (tok dom : Option String) (upstream : Upstream) (route : Gitlab.Route) (req : Request),
       Gitlab.service ⟨secret, tok, dom⟩ upstream route req = ⟨.abort 401, []⟩) := by
  intro secret h
  constructor
  · intro tok upstream route req
    simp [GH.service, apiKeyOk_unset _ req.xApiKey h]
  · intro tok dom upstream route req
    simp [Gitlab.service, apiKeyOk_unset _ req.xApiKey h]

/-- Witness for C9: empty secret with an empty header value, and unset
secret with no header. -/
theorem C9_empty_secret_witness :
    GH.service ⟨some "", some "tok"⟩ oracle404 GH.Route.issue_info emptyKeyReq = ⟨.abort 401, []⟩ ∧
    Gitlab.service ⟨none, some "tok", none⟩ oracle404 Gitlab.Route.issue_info noReq = ⟨.abort 401, []⟩ :=
  ⟨(C9_empty_secret (some "") (Or.inr rfl)).1 (some "tok") oracle404 GH.Route.issue_info emptyKeyReq,
   (C9_empty_secret none (Or.inl rfl)).2 (some "tok") none oracle404 Gitlab.Route.issue_info noReq⟩

/-- Claim C3: branch resolution of the file_content handlers of both
services. A non-empty explicit branch_name is used unchanged with no
branch-probe call; with branch_name unset, the branch literally named
main is probed first and used on HTTP 200 without probing master; master
is probed only if the main probe fails; if both probes fail the request
ends with a 404 response whose message is No main or master branch found.
The GitLab variant validates its parameters before resolving, so its
conjuncts assume them present; the GitHub variant resolves first. -/
theorem C3_branch_resolution :
    (∀ (env : GH.Env) (upstream : Upstream) (repo fp : Option String) (b : String), b ≠ "" →
       GH.get_file_content env upstream repo fp (some b) =
         GH.fileFetch env upstream repo fp b []) ∧
    (∀ (env : GH.Env) (upstream : Upstream) (repo fp : Option String),
       (upstream (GH.branchCall env repo "main")).status = 200 →
       GH.get_file_content env upstream repo fp none =
         GH.fileFetch env upstream repo fp "main" [GH.branchCall env repo "main"]) ∧
    (∀ (env : GH.Env) (upstream : Upstream) (repo fp : Option String),
       (upstream (GH.branchCall env repo "main")).status ≠ 200 →
       (upstream (GH.branchCall env repo "master")).status = 200 →
       GH.get_file_content env upstream repo fp none =
         GH.fileFetch env upstream repo fp "master"
           [GH.branchCall env repo "main", GH.branchCall env repo "master"]) ∧
    (∀ (env : GH.Env) (upstream : Upstream) (repo fp : Option String),
       (upstream (GH.branchCall env repo "main")).status ≠ 200 →
       (upstream (GH.branchCall env repo "master")).status ≠ 200 →
       GH.get_file_content env upstream repo fp none =
         ⟨.resp 404 (errObj 404 "No main or master branch found"),
          [GH.branchCall env repo "main", GH.branchCall env repo "master"]⟩) ∧
    (∀ (env : Gitlab.Env) (upstream : Upstream) (pid fp : Option String) (b : String),
       falsy pid = false → falsy fp = false → b ≠ "" →
       Gitlab.get_file_content env upstream pid fp (some b) =
         Gitlab.fileFetch env upstream pid fp b []) ∧
    (∀ (env : Gitlab.Env) (upstream : Upstream) (pid fp : Option String),
       falsy pid = false → falsy fp = false →
       (upstream (Gitlab.branchCall env (ostr pid) "main")).status = 200 →
       Gitlab.get_file_content env upstream pid fp none =
         Gitlab.fileFetch env upstream pid fp "main" [Gitlab.branchCall env (ostr pid) "main"]) ∧
    (∀ (env : Gitlab.Env) (upstream : Upstream) (pid fp : Option String),
       falsy pid = false → falsy fp = false →
       (upstream (Gitlab.branchCall env (ostr pid) "main")).status ≠ 200 →
       (upstream (Gitlab.branchCall env (ostr pid) "master")).status = 200 →
       Gitlab.get_file_content env upstream pid fp none =
         Gitlab.fileFetch env upstream pid fp "master"
           [Gitlab.branchCall env (ostr pid) "main", Gitlab.branchCall env (ostr pid) "master"]) ∧
    (∀ (env : Gitlab.Env) (upstream : Upstream) (pid fp : Option String),
       falsy pid = false → falsy fp = false →
       (upstream (Gitlab.branchCall env (ostr pid) "main")).status ≠ 200 →
       (upstream (Gitlab.branchCall env (ostr pid) "master")).status ≠ 200 →
       Gitlab.get_file_content env upstream pid fp none =
         ⟨.resp 404 (errObj 404 "No main or master branch found"),
          [Gitlab.branchCall env (ostr pid) "main", Gitlab.branchCall env (ostr pid) "master"]⟩) := by
  refine ⟨?_, ?_, ?_, ?_, ?_, ?_, ?_, ?_⟩
  · intro env upstream repo fp b hb
    simp [GH.get_file_content, falsy, ostr, hb]
  · intro env upstream repo fp h
    simp [GH.get_file_content, falsy, GH.check_branch_exists, h]
  · intro env upstream repo fp hm h2
    simp [GH.get_file_content, falsy, GH.check_branch_exists, hm, h2]
  · intro env upstream repo fp hm h2
    simp [GH.get_file_content, falsy, GH.check_branch_exists, hm, h2]
  · intro env upstream pid fp b hp hf hb
    have hb2 : falsy (some b) = false := by simp [falsy, hb]
    simp [Gitlab.get_file_content, hp, hf, hb2, ostr]
  · intro env upstream pid fp hp hf h
    have hn : falsy (none : Option String) = true := rfl
    simp [Gitlab.get_file_content, hp, hf, hn, Gitlab.check_branch_exists, h]
  · intro env upstream pid fp hp hf hm h2
    have hn : falsy (none : Option String) = true := rfl
    simp [Gitlab.get_file_content, hp, hf, hn, Gitlab.check_branch_exists, hm, h2]
  · intro env upstream pid fp hp hf hm h2
    have hn : falsy (none : Option String) = true := rfl
    simp [Gitlab.get_file_content, hp, hf, hn, Gitlab.check_branch_exists, hm, h2]

theorem C3_branch_resolution_witness :
    GH.get_file_content ghEnv0 oracle404 (some "o/r") (some "f.txt") (some "dev") =
      GH.fileFetch ghEnv0 oracle404 (some "o/r") (some "f.txt") "dev" [] ∧
    GH.get_file_content ghEnv0 oracleMainOnly (some "o/r") (some "f.txt") none =
      GH.fileFetch ghEnv0 oracleMainOnly (some "o/r") (some "f.txt") "main"
        [GH.branchCall ghEnv0 (some "o/r") "main"] ∧
    GH.get_file_content ghEnv0 oracle404 (some "o/r") (some "f.txt") none =
      ⟨.resp 404 (errObj 404 "No main or master branch found"),
       [GH.branchCall ghEnv0 (some "o/r") "main", GH.branchCall ghEnv0 (some "o/r") "master"]⟩ ∧
    Gitlab.get_file_content glEnv0 oracleMainOnly (some "proj") (some "f.txt") none =
      Gitlab.fileFetch glEnv0 oracleMainOnly (some "proj") (some "f.txt") "main"
        [Gitlab.branchCall glEnv0 "proj" "main"] :=
  ⟨C3_branch_resolution.1 ghEnv0 oracle404 (some "o/r") (some "f.txt") "dev" (by decide),
   C3_branch_resolution.2.1 ghEnv0 oracleMainOnly (some "o/r") (some "f.txt") rfl,
   C3_branch_resolution.2.2.2.1 ghEnv0 oracle404 (some "o/r") (some "f.txt")
     (by decide) (by decide),
   C3_branch_resolution.2.2.2.2.2.1 glEnv0 oracleMainOnly (some "proj") (some "f.txt")
     rfl rfl rfl⟩

/-- Claim C4: GitHub-style file_content decode. For every upstream 200
response whose content field is a base64 payload decoding to valid UTF-8
text, the handler returns a 200 response with the decoded text under the
content key; when the decoded bytes are not valid UTF-8 it returns a
JSON error response with outward status 500 and a descriptive message
instead of propagating the decode exception. -/
theorem C4_file_decode :
    ∀ (env : GH.Env) (upstream : Upstream) (repo fp : Option String) (b payload : String)
      (fields : List (String × JValue)) (bytes : List Nat),
      falsy repo = false → falsy fp = false → b ≠ "" →
      (upstream (GH.fileCall env repo fp b)).status = 200 →
      (upstream (GH.fileCall env repo fp b)).json = .obj fields →
      jGet fields "content" = some (.str payload) →
      b64decode payload = some bytes →
      (∀ text, utf8DecodeStr bytes = some text →
         GH.get_file_content env upstream repo fp (some b) =
           ⟨.resp 200 (.obj [("content", .str text)]), [GH.fileCall env repo fp b]⟩) ∧
      (utf8DecodeStr bytes = none →
         GH.get_file_content env upstream repo fp (some b) =
           ⟨.resp 500 (.obj [("error", .str ("无法显示 " ++ ostr fp ++
              " 的内容，这可能是一个二进制文件"))]), [GH.fileCall env repo fp b]⟩) := by
  intro env upstream repo fp b payload fields bytes hrepo hfp hb hst hjson hcontent hb64
  have hb2 : falsy (some b) = false := by simp [falsy, hb]
  constructor
  · intro text htext
    simp [GH.get_file_content, hb2, ostr, GH.fileFetch, hrepo, hfp, hst, hjson,
          hcontent, hb64, htext]
  · intro htext
    simp [GH.get_file_content, hb2, ostr, GH.fileFetch, hrepo, hfp, hst, hjson,
          hcontent, hb64, htext]

theorem C4_file_decode_witness :
    GH.get_file_content ghEnv0 oracleGhFile (some "o/r") (some "f.txt") (some "dev") =
      ⟨.resp 200 (.obj [("content", .str "hello")]),
       [GH.fileCall ghEnv0 (some "o/r") (some "f.txt") "dev"]⟩ ∧
    GH.get_file_content ghEnv0 oracleGhFile (some "o/r") (some "bin.dat") (some "dev") =
      ⟨.resp 500 (.obj [("error", .str "无法显示 bin.dat 的内容，这可能是一个二进制文件")]),
       [GH.fileCall ghEnv0 (some "o/r") (some "bin.dat") "dev"]⟩ :=
  ⟨(C4_file_decode ghEnv0 oracleGhFile (some "o/r") (some "f.txt") "dev" "aGVsbG8="
      [("content", .str "aGVsbG8=")] [104, 101, 108, 108, 111]
      rfl rfl (by decide) rfl rfl rfl (by decide)).1 "hello" (by decide),
   (C4_file_decode ghEnv0 oracleGhFile (some "o/r") (some "bin.dat") "dev" "/w=="
      [("content", .str "/w==")] [255]
      rfl rfl (by decide) rfl rfl rfl (by decide)).2 (by decide)⟩

/-- Claim C6: comment submission on both services. With the access token
and all parameters present, an upstream 201 on the create-comment POST
yields a 201 response with the literal success message; any other
upstream status (200 included) yields an error body whose code field and
outward status both equal that upstream status. -/
theorem C6_comment_submission :
    (∀ (env : GH.Env) (upstream : Upstream) (repo pr cb : Option String),
      falsy env.GITHUB_TOKEN = false → falsy repo = false → falsy pr = false →
      falsy cb = false →
      ((upstream (GH.commentCall (ostr env.GITHUB_TOKEN) repo pr)).status = 201 →
        GH.submit_pr_comment env upstream repo pr cb =
          ⟨.resp 201 (.obj [("message", .str "Comment created successfully")]),
           [GH.commentCall (ostr env.GITHUB_TOKEN) repo pr]⟩) ∧
      ((upstream (GH.commentCall (ostr env.GITHUB_TOKEN) repo pr)).status ≠ 201 →
        GH.submit_pr_comment env upstream repo pr cb =
          ⟨.resp (upstream (GH.commentCall (ostr env.GITHUB_TOKEN) repo pr)).status
             (errObj (upstream (GH.commentCall (ostr env.GITHUB_TOKEN) repo pr)).status
               "Failed to create comment"),
           [GH.commentCall (ostr env.GITHUB_TOKEN) repo pr]⟩)) ∧
    (∀ (env : Gitlab.Env) (upstream : Upstream) (pid mr cb : Option String),
      falsy env.GITLAB_PRIVATE_TOKEN = false → falsy pid = false → falsy mr = false →
      falsy cb = false →
      ((upstream (Gitlab.commentCall env (ostr env.GITLAB_PRIVATE_TOKEN) pid mr)).status = 201 →
        Gitlab.submit_mr_comment env upstream pid mr cb =
          ⟨.resp 201 (.obj [("message", .str "Comment created successfully")]),
           [Gitlab.commentCall env (ostr env.GITLAB_PRIVATE_TOKEN) pid mr]⟩) ∧
      ((upstream (Gitlab.commentCall env (ostr env.GITLAB_PRIVATE_TOKEN) pid mr)).status ≠ 201 →
        Gitlab.submit_mr_comment env upstream pid mr cb =
          ⟨.resp (upstream (Gitlab.commentCall env (ostr env.GITLAB_PRIVATE_TOKEN) pid mr)).status
             (errObj (upstream (Gitlab.commentCall env (ostr env.GITLAB_PRIVATE_TOKEN) pid mr)).status
               "Failed to create comment"),
           [Gitlab.commentCall env (ostr env.GITLAB_PRIVATE_TOKEN) pid mr]⟩)) := by
  constructor
  · intro env upstream repo pr cb htok hrepo hpr hcb
    constructor
    · intro h
      simp [GH.submit_pr_comment, htok, hrepo, hpr, hcb, h]
    · intro h
      simp [GH.submit_pr_comment, htok, hrepo, hpr, hcb, h]
  · intro env upstream pid mr cb htok hpid hmr hcb
    constructor
    · intro h
      simp [Gitlab.submit_mr_comment, htok, hpid, hmr, hcb, h]
    · intro h
      simp [Gitlab.submit_mr_comment, htok, hpid, hmr, hcb, h]

theorem C6_comment_submission_witness :
    GH.submit_pr_comment ghEnv0 oracle201 (some "o/r") (some "7") (some "hi") =
      ⟨.resp 201 (.obj [("message", .str "Comment created successfully")]),
       [GH.commentCall "tok" (some "o/r") (some "7")]⟩ ∧
    Gitlab.submit_mr_comment glEnv0 oracle404 (some "proj") (some "7") (some "hi") =
      ⟨.resp 404 (errObj 404 "Failed to create comment"),
       [Gitlab.commentCall glEnv0 "tok" (some "proj") (some "7")]⟩ :=
  ⟨(C6_comment_submission.1 ghEnv0 oracle201 (some "o/r") (some "7") (some "hi")
      rfl rfl rfl rfl).1 rfl,
   (C6_comment_submission.2 glEnv0 oracle404 (some "proj") (some "7") (some "hi")
      rfl rfl rfl rfl).2 (by decide)⟩

lemma treeLoop_entries (entries : List (String × String)) :
    treeLoop (entries.map entryObj) =
      .ok ((entries.filter (fun e => e.1 == "tree")).map (fun e => JValue.str e.2),
           (entries.filter (fun e => e.1 == "blob")).map (fun e => JValue.str e.2)) := by
  induction entries with
  | nil => rfl
  | cons e rest ih =>
    obtain ⟨t, p⟩ := e
    by_cases ht : t = "tree"
    · subst ht
      simp [entryObj, treeLoop, jGet, isStrEq, ih, List.filter_cons, Except.map]
    · by_cases hb : t = "blob"
      · subst hb
        simp [entryObj, treeLoop, jGet, isStrEq, ih, List.filter_cons, Except.map]
      · simp [entryObj, treeLoop, jGet, isStrEq, ih, List.filter_cons, ht, hb]

lemma gh_repo_ok (env : GH.Env) (upstream : Upstream) (repo branch sha : String)
    (f1 f2 : List (String × JValue)) (entries : List (String × String))
    (hr0 : repo ≠ "") (hr1 : repo.data.contains '/' = true)
    (hr2 : (pySplit '/' repo.data).length = 2) (hb : branch ≠ "")
    (hs1 : (upstream (GH.commitsCall env (some repo) branch)).status = 200)
    (hj1 : (upstream (GH.commitsCall env (some repo) branch)).json = .obj f1)
    (hsha : jGet f1 "sha" = some (.str sha)) (hsha0 : sha ≠ "")
    (hs2 : (upstream (GH.treesCall env (some repo) sha)).status = 200)
    (hj2 : (upstream (GH.treesCall env (some repo) sha)).json = .obj f2)
    (htree : jGet f2 "tree" = some (.arr (entries.map entryObj))) :
    GH.get_repo_structure env upstream (some repo) (some branch) =
      ⟨.resp 200 (.obj
         [("directories", .arr ((entries.filter (fun e => e.1 == "tree")).map
             (fun e => JValue.str e.2))),
          ("files", .arr ((entries.filter (fun e => e.1 == "blob")).map
             (fun e => JValue.str e.2)))]),
       [GH.commitsCall env (some repo) branch, GH.treesCall env (some repo) sha]⟩ := by
  have hb2 : falsy (some branch) = false := by simp [falsy, hb]
  have hrf : falsy (some repo) = false := by simp [falsy, hr0]
  have htr : pyTruthy ((jGet f1 "sha").getD JValue.null) = true := by
    rw [hsha]; simp [pyTruthy, hsha0]
  have hrepr : pyRepr ((jGet f1 "sha").getD JValue.null) = sha := by
    rw [hsha]; rfl
  have hr1m : '/' ∈ repo.data := by simpa using hr1
  simp [GH.get_repo_structure, hb2, GH.repoFetch, hrf, ostr, hr1m, hr2,
        hs1, hj1, htr, hrepr, hs2, hj2, htree, iterTree, treeLoop_entries]

lemma gl_repo_ok (env : Gitlab.Env) (upstream : Upstream) (pid branch : String)
    (entries : List (String × String))
    (hp : pid ≠ "") (hb : branch ≠ "")
    (hs : (upstream (Gitlab.treeCall env (some pid) branch)).status = 200)
    (hj : (upstream (Gitlab.treeCall env (some pid) branch)).json =
            .arr (entries.map entryObj)) :
    Gitlab.get_repo_structure env upstream (some pid) (some branch) =
      ⟨.resp 200 (.obj
         [("directories", .arr ((entries.filter (fun e => e.1 == "tree")).map
             (fun e => JValue.str e.2))),
          ("files", .arr ((entries.filter (fun e => e.1 == "blob")).map
             (fun e => JValue.str e.2)))]),
       [Gitlab.treeCall env (some pid) branch]⟩ := by
  have hp2 : falsy (some pid) = false := by simp [falsy, hp]
  have hb2 : falsy (some branch) = false := by simp [falsy, hb]
  simp [Gitlab.get_repo_structure, hp2, hb2, ostr, Gitlab.repoFetch, hs, hj,
        iterTree, treeLoop_entries]

/-- Claim C7: repository-structure partition on both services. For every
successful upstream tree response that is a list of typed entries, every
tree-typed entry path lands in directories and every blob-typed entry
path lands in files, each list preserving the relative order of the
upstream response. -/
theorem C7_tree_partition :
    (∀ (env : GH.Env) (upstream : Upstream) (repo branch sha : String)
       (f1 f2 : List (String × JValue)) (entries : List (String × String)),
       repo ≠ "" → repo.data.contains '/' = true → (pySplit '/' repo.data).length = 2 →
       branch ≠ "" →
       (upstream (GH.commitsCall env (some repo) branch)).status = 200 →
       (upstream (GH.commitsCall env (some repo) branch)).json = .obj f1 →
       jGet f1 "sha" = some (.str sha) → sha ≠ "" →
       (upstream (GH.treesCall env (some repo) sha)).status = 200 →
       (upstream (GH.treesCall env (some repo) sha)).json = .obj f2 →
       jGet f2 "tree" = some (.arr (entries.map entryObj)) →
       GH.get_repo_structure env upstream (some repo) (some branch) =
         ⟨.resp 200 (.obj
            [("directories", .arr ((entries.filter (fun e => e.1 == "tree")).map
                (fun e => JValue.str e.2))),
             ("files", .arr ((entries.filter (fun e => e.1 == "blob")).map
                (fun e => JValue.str e.2)))]),
          [GH.commitsCall env (some repo) branch, GH.treesCall env (some repo) sha]⟩) ∧
    (∀ (env : Gitlab.Env) (upstream : Upstream) (pid branch : String)
       (entries : List (String × String)),
       pid ≠ "" → branch ≠ "" →
       (upstream (Gitlab.treeCall env (some pid) branch)).status = 200 →
       (upstream (Gitlab.treeCall env (some pid) branch)).json =
         .arr (entries.map entryObj) →
       Gitlab.get_repo_structure env upstream (some pid) (some branch) =
         ⟨.resp 200 (.obj
            [("directories", .arr ((entries.filter (fun e => e.1 == "tree")).map
                (fun e => JValue.str e.2))),
             ("files", .arr ((entries.filter (fun e => e.1 == "blob")).map
                (fun e => JValue.str e.2)))]),
          [Gitlab.treeCall env (some pid) branch]⟩) :=
  ⟨fun env upstream repo branch sha f1 f2 entries hr0 hr1 hr2 hb hs1 hj1 hsha hsha0 hs2 hj2 htree =>
     gh_repo_ok env upstream repo branch sha f1 f2 entries hr0 hr1 hr2 hb hs1 hj1 hsha hsha0 hs2 hj2 htree,
   fun env upstream pid branch entries hp hb hs hj =>
     gl_repo_ok env upstream pid branch entries hp hb hs hj⟩

theorem C7_tree_partition_witness :
    GH.get_repo_structure ghEnv0 oracleRepo0 (some "o/r") (some "dev") =
      ⟨.resp 200 (.obj
         [("directories", .arr [.str "src"]),
          ("files", .arr [.str "README.md", .str "src/main.py"])]),
       [GH.commitsCall ghEnv0 (some "o/r") "dev", GH.treesCall ghEnv0 (some "o/r") "abc"]⟩ ∧
    Gitlab.get_repo_structure glEnv0 oracleRepo0 (some "proj") (some "dev") =
      ⟨.resp 200 (.obj
         [("directories", .arr [.str "src"]),
          ("files", .arr [.str "README.md", .str "src/main.py"])]),
       [Gitlab.treeCall glEnv0 (some "proj") "dev"]⟩ :=
  ⟨C7_tree_partition.1 ghEnv0 oracleRepo0 "o/r" "dev" "abc"
     [("sha", .str "abc")] [("tree", .arr (treeEntries0.map entryObj))] treeEntries0
     (by decide) (by decide) (by decide) (by decide) rfl rfl rfl (by decide) rfl rfl rfl,
   C7_tree_partition.2 glEnv0 oracleRepo0 "proj" "dev" treeEntries0
     (by decide) (by decide) rfl rfl⟩

/-- Claim C10: every upstream tree entry whose type is neither tree nor
blob (for example a submodule entry of type commit) is silently omitted
from both output lists of repo_structure on both services: the response
is identical to the one computed from the listing without that entry, so
the union of the two output lists can be a strict subset of the entry
paths. -/
theorem C10_unknown_types_omitted :
    (∀ (env : GH.Env) (upstream : Upstream) (repo branch sha t p : String)
       (f1 f2 : List (String × JValue)) (pre post : List (String × String)),
       t ≠ "tree" → t ≠ "blob" →
       repo ≠ "" → repo.data.contains '/' = true → (pySplit '/' repo.data).length = 2 →
       branch ≠ "" →
       (upstream (GH.commitsCall env (some repo) branch)).status = 200 →
       (upstream (GH.commitsCall env (some repo) branch)).json = .obj f1 →
       jGet f1 "sha" = some (.str sha) → sha ≠ "" →
       (upstream (GH.treesCall env (some repo) sha)).status = 200 →
       (upstream (GH.treesCall env (some repo) sha)).json = .obj f2 →
       jGet f2 "tree" = some (.arr ((pre ++ (t, p) :: post).map entryObj)) →
       GH.get_repo_structure env upstream (some repo) (some branch) =
         ⟨.resp 200 (.obj
            [("directories", .arr (((pre ++ post).filter (fun e => e.1 == "tree")).map
                (fun e => JValue.str e.2))),
             ("files", .arr (((pre ++ post).filter (fun e => e.1 == "blob")).map
                (fun e => JValue.str e.2)))]),
          [GH.commitsCall env (some repo) branch, GH.treesCall env (some repo) sha]⟩) ∧
    (∀ (env : Gitlab.Env) (upstream : Upstream) (pid branch t p : String)
       (pre post : List (String × String)),
       t ≠ "tree" → t ≠ "blob" →
       pid ≠ "" → branch ≠ "" →
       (upstream (Gitlab.treeCall env (some pid) branch)).status = 200 →
       (upstream (Gitlab.treeCall env (some pid) branch)).json =
         .arr ((pre ++ (t, p) :: post).map entryObj) →
       Gitlab.get_repo_structure env upstream (some pid) (some branch) =
         ⟨.resp 200 (.obj
            [("directories", .arr (((pre ++ post).filter (fun e => e.1 == "tree")).map
                (fun e => JValue.str e.2))),
             ("files", .arr (((pre ++ post).filter (fun e => e.1 == "blob")).map
                (fun e => JValue.str e.2)))]),
          [Gitlab.treeCall env (some pid) branch]⟩) := by
  constructor
  · intro env upstream repo branch sha t p f1 f2 pre post ht hbl hr0 hr1 hr2 hb
      hs1 hj1 hsha hsha0 hs2 hj2 htree
    have ht2 : (t == "tree") = false := by simp [ht]
    have hb2 : (t == "blob") = false := by simp [hbl]
    rw [gh_repo_ok env upstream repo branch sha f1 f2 (pre ++ (t, p) :: post)
      hr0 hr1 hr2 hb hs1 hj1 hsha hsha0 hs2 hj2 htree]
    simp [List.filter_append, List.filter_cons, ht2, hb2]
  · intro env upstream pid branch t p pre post ht hbl hp hb hs hj
    have ht2 : (t == "tree") = false := by simp [ht]
    have hb2 : (t == "blob") = false := by simp [hbl]
    rw [gl_repo_ok env upstream pid branch (pre ++ (t, p) :: post) hp hb hs hj]
    simp [List.filter_append, List.filter_cons, ht2, hb2]

theorem C10_unknown_types_omitted_witness :
    GH.get_repo_structure ghEnv0 oracleRepo1 (some "o/r") (some "dev") =
      ⟨.resp 200 (.obj
         [("directories", .arr [.str "src"]),
          ("files", .arr [.str "README.md"])]),
       [GH.commitsCall ghEnv0 (some "o/r") "dev", GH.treesCall ghEnv0 (some "o/r") "abc"]⟩ ∧
    Gitlab.get_repo_structure glEnv0 oracleRepo1 (some "proj") (some "dev") =
      ⟨.resp 200 (.obj
         [("directories", .arr [.str "src"]),
          ("files", .arr [.str "README.md"])]),
       [Gitlab.treeCall glEnv0 (some "proj") "dev"]⟩ :=
  ⟨C10_unknown_types_omitted.1 ghEnv0 oracleRepo1 "o/r" "dev" "abc" "commit" "vendor/sub"
     [("sha", .str "abc")] [("tree", .arr (treeEntries1.map entryObj))]
     [("tree", "src")] [("blob", "README.md")]
     (by decide) (by decide) (by decide) (by decide) (by decide) (by decide)
     rfl rfl rfl (by decide) rfl rfl rfl,
   C10_unknown_types_omitted.2 glEnv0 oracleRepo1 "proj" "dev" "commit" "vendor/sub"
     [("tree", "src")] [("blob", "README.md")]
     (by decide) (by decide) (by decide) (by decide) rfl rfl⟩

/-- Claim C1 counterexample: a request to the GitHub-style file_content
endpoint with the correct shared-secret header, a missing repo_full_name
and no branch_name makes two upstream branch-probe calls and ends with a
404, refuting that a missing required parameter yields a 400-class
response with zero upstream calls and no branch probe. -/
theorem C1_counterexample :
    (GH.service ghEnv0 oracle404 GH.Route.file_content c1Req).calls.length = 2 ∧
    (GH.service ghEnv0 oracle404 GH.Route.file_content c1Req).out =
      .resp 404 (errObj 404 "No main or master branch found") :=
  ⟨rfl, rfl⟩

/-- Claim C1 as amended: a missing or empty required parameter yields the
exact 400 validation response with zero upstream calls on every endpoint
except the GitHub-style file_content and repo_structure handlers with
branch_name unset, which first issue one or two branch-probe upstream
calls and return the 400 only after a successful probe (404 when both
probes fail); the comment endpoints return their 401 token response
first when the token is also absent. -/
theorem C1_amended :
    (∀ (env : GH.Env) (upstream : Upstream) (repo pr : Option String),
      (falsy repo || falsy pr) = true →
      GH.get_pr_content env upstream repo pr =
        ⟨.resp 400 (errObj 400 "Missing repo_full_name or pr_number"), []⟩) ∧
    (∀ (env : GH.Env) (upstream : Upstream) (repo issue : Option String),
      (falsy repo || falsy issue) = true →
      GH.get_issue_info env upstream repo issue =
        ⟨.resp 400 (errObj 400 "Missing repo_full_name or issue_number"), []⟩) ∧
    (∀ (env : GH.Env) (upstream : Upstream) (repo pr cb : Option String),
      (falsy repo || falsy pr || falsy cb) = true →
      (GH.submit_pr_comment env upstream repo pr cb).calls = [] ∧
      (GH.submit_pr_comment env upstream repo pr cb).out =
        (if falsy env.GITHUB_TOKEN then
           .resp 401 (errObj 401 "GitHub access token is not set")
         else .resp 400 (errObj 400 "Missing required parameters"))) ∧
    (∀ (env : GH.Env) (upstream : Upstream) (repo fp : Option String) (b : String),
      b ≠ "" → (falsy repo || falsy fp) = true →
      GH.get_file_content env upstream repo fp (some b) =
        ⟨.resp 400 (errObj 400 "Missing repo_full_name or file_path"), []⟩) ∧
    (∀ (env : GH.Env) (upstream : Upstream) (repo fp bn : Option String),
      falsy bn = true → (falsy repo || falsy fp) = true →
      ((upstream (GH.branchCall env repo "main")).status = 200 →
        GH.get_file_content env upstream repo fp bn =
          ⟨.resp 400 (errObj 400 "Missing repo_full_name or file_path"),
           [GH.branchCall env repo "main"]⟩) ∧
      ((upstream (GH.branchCall env repo "main")).status ≠ 200 →
       (upstream (GH.branchCall env repo "master")).status = 200 →
        GH.get_file_content env upstream repo fp bn =
          ⟨.resp 400 (errObj 400 "Missing repo_full_name or file_path"),
           [GH.branchCall env repo "main", GH.branchCall env repo "master"]⟩) ∧
      ((upstream (GH.branchCall env repo "main")).status ≠ 200 →
       (upstream (GH.branchCall env repo "master")).status ≠ 200 →
        GH.get_file_content env upstream repo fp bn =
          ⟨.resp 404 (errObj 404 "No main or master branch found"),
           [GH.branchCall env repo "main", GH.branchCall env repo "master"]⟩)) ∧
    (∀ (env : GH.Env) (upstream : Upstream) (repo : Option String) (b : String),
      b ≠ "" → falsy repo = true →
      GH.get_repo_structure env upstream repo (some b) =
        ⟨.resp 400 (errObj 400 "Invalid or missing repo_full_name"), []⟩) ∧
    (∀ (env : GH.Env) (upstream : Upstream) (repo bn : Option String),
      falsy bn = true → falsy repo = true →
      ((upstream (GH.branchCall env repo "main")).status = 200 →
        GH.get_repo_structure env upstream repo bn =
          ⟨.resp 400 (errObj 400 "Invalid or missing repo_full_name"),
           [GH.branchCall env repo "main"]⟩) ∧
      ((upstream (GH.branchCall env repo "main")).status ≠ 200 →
       (upstream (GH.branchCall env repo "master")).status = 200 →
        GH.get_repo_structure env upstream repo bn =
          ⟨.resp 400 (errObj 400 "Invalid or missing repo_full_name"),
           [GH.branchCall env repo "main", GH.branchCall env repo "master"]⟩) ∧
      ((upstream (GH.branchCall env repo "main")).status ≠ 200 →
       (upstream (GH.branchCall env repo "master")).status ≠ 200 →
        GH.get_repo_structure env upstream repo bn =
          ⟨.resp 404 (errObj 404 "No main or master branch found"),
           [GH.branchCall env repo "main", GH.branchCall env repo "master"]⟩)) ∧
    (∀ (env : Gitlab.Env) (upstream : Upstream) (pid mr : Option String),
      (falsy pid || falsy mr) = true →
      Gitlab.get_mr_content env upstream pid mr =
        ⟨.resp 400 (errObj 400 "Missing project_id or mr_iid"), []⟩) ∧
    (∀ (env : Gitlab.Env) (upstream : Upstream) (pid fp bn : Option String),
      (falsy pid || falsy fp) = true →
      Gitlab.get_file_content env upstream pid fp bn =
        ⟨.resp 400 (errObj 400 "Missing project_id or file_path"), []⟩) ∧
    (∀ (env : Gitlab.Env) (upstream : Upstream) (pid iid : Option String),
      (falsy pid || falsy iid) = true →
      Gitlab.get_issue_info env upstream pid iid =
        ⟨.resp 400 (errObj 400 "Missing project_id or issue_iid"), []⟩) ∧
    (∀ (env : Gitlab.Env) (upstream : Upstream) (pid mr cb : Option String),
      (falsy pid || falsy mr || falsy cb) = true →
      (Gitlab.submit_mr_comment env upstream pid mr cb).calls = [] ∧
      (Gitlab.submit_mr_comment env upstream pid mr cb).out =
        (if falsy env.GITLAB_PRIVATE_TOKEN then
           .resp 401 (errObj 401 "GitLab access token is not set")
         else .resp 400 (errObj 400 "Missing required parameters"))) ∧
    (∀ (env : Gitlab.Env) (upstream : Upstream) (pid bn : Option String),
      falsy pid = true →
      Gitlab.get_repo_structure env upstream pid bn =
        ⟨.resp 400 (errObj 400 "Missing project_id"), []⟩) := by
  refine ⟨?_, ?_, ?_, ?_, ?_, ?_, ?_, ?_, ?_, ?_, ?_, ?_⟩
  · intro env upstream repo pr h
    simp [GH.get_pr_content, h]
  · intro env upstream repo issue h
    simp [GH.get_issue_info, h]
  · intro env upstream repo pr cb h
    cases htok : falsy env.GITHUB_TOKEN <;>
      simp [GH.submit_pr_comment, h, htok]
  · intro env upstream repo fp b hb h
    have hb2 : falsy (some b) = false := by simp [falsy, hb]
    simp [GH.get_file_content, hb2, GH.fileFetch, h]
  · intro env upstream repo fp bn hbn h
    refine ⟨?_, ?_, ?_⟩
    · intro hm
      simp [GH.get_file_content, hbn, GH.check_branch_exists, hm, GH.fileFetch, h]
    · intro hm h2
      simp [GH.get_file_content, hbn, GH.check_branch_exists, hm, h2, GH.fileFetch, h]
    · intro hm h2
      simp [GH.get_file_content, hbn, GH.check_branch_exists, hm, h2]
  · intro env upstream repo b hb h
    have hb2 : falsy (some b) = false := by simp [falsy, hb]
    simp [GH.get_repo_structure, hb2, GH.repoFetch, h]
  · intro env upstream repo bn hbn h
    refine ⟨?_, ?_, ?_⟩
    · intro hm
      simp [GH.get_repo_structure, hbn, GH.check_branch_exists, hm, GH.repoFetch, h]
    · intro hm h2
      simp [GH.get_repo_structure, hbn, GH.check_branch_exists, hm, h2, GH.repoFetch, h]
    · intro hm h2
      simp [GH.get_repo_structure, hbn, GH.check_branch_exists, hm, h2]
  · intro env upstream pid mr h
    simp [Gitlab.get_mr_content, h]
  · intro env upstream pid fp bn h
    simp [Gitlab.get_file_content, h]
  · intro env upstream pid iid h
    simp [Gitlab.get_issue_info, h]
  · intro env upstream pid mr cb h
    cases htok : falsy env.GITLAB_PRIVATE_TOKEN <;>
      simp [Gitlab.submit_mr_comment, h, htok]
  · intro env upstream pid bn h
    simp [Gitlab.get_repo_structure, h]

theorem C1_amended_witness :
    GH.get_pr_content ghEnv0 oracle404 none (some "5") =
      ⟨.resp 400 (errObj 400 "Missing repo_full_name or pr_number"), []⟩ ∧
    GH.get_file_content ghEnv0 oracle404 none (some "a.txt") none =
      ⟨.resp 404 (errObj 404 "No main or master branch found"),
       [GH.branchCall ghEnv0 none "main", GH.branchCall ghEnv0 none "master"]⟩ ∧
    Gitlab.get_file_content glEnv0 oracle404 none (some "a.txt") none =
      ⟨.resp 400 (errObj 400 "Missing project_id or file_path"), []⟩ :=
  ⟨C1_amended.1 ghEnv0 oracle404 none (some "5") rfl,
   (C1_amended.2.2.2.2.1 ghEnv0 oracle404 none (some "a.txt") none rfl rfl).2.2
     (by decide) (by decide),
   C1_amended.2.2.2.2.2.2.2.2.1 glEnv0 oracle404 none (some "a.txt") none rfl⟩

/-- Claim C8 counterexample: with the GitHub token environment variable
absent, the issue_info handler still performs its upstream call and
returns the upstream-mirrored 404, not a 401 before any call, refuting
the claim for every endpoint. -/
theorem C8_counterexample :
    (GH.get_issue_info ghEnvNoTok oracle404 (some "o/r") (some "5")).calls.length = 1 ∧
    (GH.get_issue_info ghEnvNoTok oracle404 (some "o/r") (some "5")).out =
      .resp 404 (errObj 404 "Failed to fetch issue info") :=
  ⟨rfl, rfl⟩

/-- Claim C8 as amended: only the two comment-submission endpoints check
the provider access token, answering 401 with zero upstream calls when it
is absent or empty; every other endpoint of both services proceeds to
issue at least one upstream call even with the token variable unset. -/
theorem C8_amended :
    (∀ (env : GH.Env) (upstream : Upstream) (repo pr cb : Option String),
      falsy env.GITHUB_TOKEN = true →
      GH.submit_pr_comment env upstream repo pr cb =
        ⟨.resp 401 (errObj 401 "GitHub access token is not set"), []⟩) ∧
    (∀ (env : Gitlab.Env) (upstream : Upstream) (pid mr cb : Option String),
      falsy env.GITLAB_PRIVATE_TOKEN = true →
      Gitlab.submit_mr_comment env upstream pid mr cb =
        ⟨.resp 401 (errObj 401 "GitLab access token is not set"), []⟩) ∧
    (∀ (k : Option String) (upstream : Upstream) (repo pr : Option String),
      falsy repo = false → falsy pr = false →
      (GH.get_pr_content ⟨k, none⟩ upstream repo pr).calls ≠ []) ∧
    (∀ (k : Option String) (upstream : Upstream) (repo issue : Option String),
      falsy repo = false → falsy issue = false →
      (GH.get_issue_info ⟨k, none⟩ upstream repo issue).calls ≠ []) ∧
    (∀ (k : Option String) (upstream : Upstream) (repo fp : Option String) (b : String),
      b ≠ "" → falsy repo = false → falsy fp = false →
      (GH.get_file_content ⟨k, none⟩ upstream repo fp (some b)).calls ≠ []) ∧
    (∀ (k : Option String) (upstream : Upstream) (repo b : String),
      b ≠ "" → repo ≠ "" → repo.data.contains '/' = true →
      (pySplit '/' repo.data).length = 2 →
      (GH.get_repo_structure ⟨k, none⟩ upstream (some repo) (some b)).calls ≠ []) ∧
    (∀ (k dom : Option String) (upstream : Upstream) (pid mr : Option String),
      falsy pid = false → falsy mr = false →
      (Gitlab.get_mr_content ⟨k, none, dom⟩ upstream pid mr).calls ≠ []) ∧
    (∀ (k dom : Option String) (upstream : Upstream) (pid fp : Option String) (b : String),
      b ≠ "" → falsy pid = false → falsy fp = false →
      (Gitlab.get_file_content ⟨k, none, dom⟩ upstream pid fp (some b)).calls ≠ []) ∧
    (∀ (k dom : Option String) (upstream : Upstream) (pid iid : Option String),
      falsy pid = false → falsy iid = false →
      (Gitlab.get_issue_info ⟨k, none, dom⟩ upstream pid iid).calls ≠ []) ∧
    (∀ (k dom : Option String) (upstream : Upstream) (pid : Option String) (b : String),
      b ≠ "" → falsy pid = false →
      (Gitlab.get_repo_structure ⟨k, none, dom⟩ upstream pid (some b)).calls ≠ []) := by
  refine ⟨?_, ?_, ?_, ?_, ?_, ?_, ?_, ?_, ?_, ?_⟩
  · intro env upstream repo pr cb htok
    simp [GH.submit_pr_comment, htok]
  · intro env upstream pid mr cb htok
    simp [Gitlab.submit_mr_comment, htok]
  · intro k upstream repo pr h1 h2
    simp only [GH.get_pr_content, h1, h2]
    repeat' split
    all_goals simp_all
  · intro k upstream repo issue h1 h2
    simp only [GH.get_issue_info, h1, h2]
    repeat' split
    all_goals simp_all
  · intro k upstream repo fp b hb h1 h2
    have hb2 : falsy (some b) = false := by simp [falsy, hb]
    simp only [GH.get_file_content, hb2, GH.fileFetch, h1, h2]
    repeat' split
    all_goals simp_all
  · intro k upstream repo b hb hr0 hr1 hr2
    have hb2 : falsy (some b) = false := by simp [falsy, hb]
    have hrf : falsy (some repo) = false := by simp [falsy, hr0]
    have hr1m : '/' ∈ repo.data := by simpa using hr1
    simp only [GH.get_repo_structure, hb2, GH.repoFetch, hrf, ostr, hr1m, hr2]
    repeat' split
    all_goals simp_all
  · intro k dom upstream pid mr h1 h2
    simp only [Gitlab.get_mr_content, h1, h2]
    repeat' split
    all_goals simp_all
  · intro k dom upstream pid fp b hb h1 h2
    have hb2 : falsy (some b) = false := by simp [falsy, hb]
    simp only [Gitlab.get_file_content, hb2, Gitlab.fileFetch, h1, h2]
    repeat' split
    all_goals simp_all
  · intro k dom upstream pid iid h1 h2
    simp only [Gitlab.get_issue_info, h1, h2]
    repeat' split
    all_goals simp_all
  · intro k dom upstream pid b hb h1
    have hb2 : falsy (some b) = false := by simp [falsy, hb]
    have hc : (Gitlab.repoFetch ⟨k, none, dom⟩ upstream pid b []).calls =
        [Gitlab.treeCall ⟨k, none, dom⟩ pid b] := by
      simp only [Gitlab.repoFetch]
      repeat' split
      all_goals rfl
    simp [Gitlab.get_repo_structure, h1, hb2, ostr, hc]

theorem C8_amended_witness :
    GH.submit_pr_comment ghEnvNoTok oracle404 (some "o/r") (some "7") (some "hi") =
      ⟨.resp 401 (errObj 401 "GitHub access token is not set"), []⟩ ∧
    Gitlab.submit_mr_comment glEnvNoTok oracle404 (some "proj") (some "7") (some "hi") =
      ⟨.resp 401 (errObj 401 "GitLab access token is not set"), []⟩ ∧
    (GH.get_pr_content ⟨some "key", none⟩ oracle404 (some "o/r") (some "7")).calls ≠ [] :=
  ⟨C8_amended.1 ghEnvNoTok oracle404 (some "o/r") (some "7") (some "hi") rfl,
   C8_amended.2.1 glEnvNoTok oracle404 (some "proj") (some "7") (some "hi") rfl,
   C8_amended.2.2.1 (some "key") oracle404 (some "o/r") (some "7") rfl rfl⟩

lemma ghBodyOk_pr (env : GH.Env) (upstream : Upstream) (repo pr : Option String) :
    ghBodyOk .pr_content (GH.get_pr_content env upstream repo pr).out = true := by
  simp only [GH.get_pr_content, GH.prReshape]
  repeat' split
  all_goals simp [ghBodyOk, ghSuccessShape, hasCodeMessage, errObj, jGet]

lemma ghBodyOk_fileFetch (env : GH.Env) (upstream : Upstream)
    (repo fp : Option String) (branch : String) (calls0 : List Call) :
    ghBodyOk .file_content (GH.fileFetch env upstream repo fp branch calls0).out = true := by
  simp only [GH.fileFetch]
  repeat' split
  all_goals simp [ghBodyOk, ghSuccessShape, hasCodeMessage, errObj, jGet, binError]

lemma ghBodyOk_file (env : GH.Env) (upstream : Upstream) (repo fp bn : Option String) :
    ghBodyOk .file_content (GH.get_file_content env upstream repo fp bn).out = true := by
  simp only [GH.get_file_content]
  repeat' split
  all_goals first
    | apply ghBodyOk_fileFetch
    | simp [ghBodyOk, hasCodeMessage, errObj, jGet]

lemma ghBodyOk_issue (env : GH.Env) (upstream : Upstream) (repo issue : Option String) :
    ghBodyOk .issue_info (GH.get_issue_info env upstream repo issue).out = true := by
  simp only [GH.get_issue_info]
  repeat' split
  all_goals simp [ghBodyOk, ghSuccessShape, hasCodeMessage, errObj, jGet]

lemma ghBodyOk_submit (env : GH.Env) (upstream : Upstream) (repo pr cb : Option String) :
    ghBodyOk .submit_pr_comment (GH.submit_pr_comment env upstream repo pr cb).out = true := by
  simp only [GH.submit_pr_comment]
  repeat' split
  all_goals simp [ghBodyOk, ghSuccessShape, hasCodeMessage, errObj, jGet]

lemma ghBodyOk_repoFetch (env : GH.Env) (upstream : Upstream)
    (repo : Option String) (branch : String) (calls0 : List Call) :
    ghBodyOk .repo_structure (GH.repoFetch env upstream repo branch calls0).out = true := by
  simp only [GH.repoFetch]
  repeat' split
  all_goals simp [ghBodyOk, ghSuccessShape, hasCodeMessage, errObj, jGet]

lemma ghBodyOk_repo (env : GH.Env) (upstream : Upstream) (repo bn : Option String) :
    ghBodyOk .repo_structure (GH.get_repo_structure env upstream repo bn).out = true := by
  simp only [GH.get_repo_structure]
  repeat' split
  all_goals first
    | apply ghBodyOk_repoFetch
    | simp [ghBodyOk, hasCodeMessage, errObj, jGet]

lemma glBodyOk_mr (env : Gitlab.Env) (upstream : Upstream) (pid mr : Option String) :
    glBodyOk .mr_content (Gitlab.get_mr_content env upstream pid mr).out = true := by
  simp only [Gitlab.get_mr_content]
  repeat' split
  all_goals simp [glBodyOk, glSuccessShape, hasCodeMessage, errObj, jGet]

lemma glBodyOk_fileFetch (env : Gitlab.Env) (upstream : Upstream)
    (pid fp : Option String) (branch : String) (calls0 : List Call) :
    glBodyOk .file_content (Gitlab.fileFetch env upstream pid fp branch calls0).out = true := by
  simp only [Gitlab.fileFetch]
  repeat' split
  all_goals simp [glBodyOk, glSuccessShape, hasCodeMessage, errObj, jGet]

lemma glBodyOk_file (env : Gitlab.Env) (upstream : Upstream) (pid fp bn : Option String) :
    glBodyOk .file_content (Gitlab.get_file_content env upstream pid fp bn).out = true := by
  simp only [Gitlab.get_file_content]
  repeat' split
  all_goals first
    | apply glBodyOk_fileFetch
    | simp [glBodyOk, hasCodeMessage, errObj, jGet]

lemma glBodyOk_issue (env : Gitlab.Env) (upstream : Upstream) (pid iid : Option String) :
    glBodyOk .issue_info (Gitlab.get_issue_info env upstream pid iid).out = true := by
  simp only [Gitlab.get_issue_info]
  repeat' split
  all_goals simp [glBodyOk, glSuccessShape, hasCodeMessage, errObj, jGet]

lemma glBodyOk_submit (env : Gitlab.Env) (upstream : Upstream) (pid mr cb : Option String) :
    glBodyOk .submit_mr_comment (Gitlab.submit_mr_comment env upstream pid mr cb).out = true := by
  simp only [Gitlab.submit_mr_comment]
  repeat' split
  all_goals simp [glBodyOk, glSuccessShape, hasCodeMessage, errObj, jGet]

lemma glBodyOk_repoFetch (env : Gitlab.Env) (upstream : Upstream)
    (pid : Option String) (branch : String) (calls0 : List Call) :
    glBodyOk .repo_structure (Gitlab.repoFetch env upstream pid branch calls0).out = true := by
  simp only [Gitlab.repoFetch]
  repeat' split
  all_goals simp [glBodyOk, glSuccessShape, hasCodeMessage, errObj, jGet]

lemma glBodyOk_repo (env : Gitlab.Env) (upstream : Upstream) (pid bn : Option String) :
    glBodyOk .repo_structure (Gitlab.get_repo_structure env upstream pid bn).out = true := by
  simp only [Gitlab.get_repo_structure]
  repeat' split
  all_goals first
    | apply glBodyOk_repoFetch
    | simp [glBodyOk, hasCodeMessage, errObj, jGet]

/-- Claim C5 counterexample: the binary-rejection branch of the
GitHub-style file_content handler returns a single-key error object that
carries neither the code/message pair nor the endpoint success shape,
refuting the claim that no endpoint ever returns an error body of any
other shape. -/
theorem C5_counterexample :
    (GH.get_file_content ghEnv0 oracleGhFile (some "o/r") (some "bin.dat") (some "dev")).out =
      .resp 500 (.obj [("error", .str "无法显示 bin.dat 的内容，这可能是一个二进制文件")]) ∧
    hasCodeMessage
      (.obj [("error", .str "无法显示 bin.dat 的内容，这可能是一个二进制文件")]) = false ∧
    ghSuccessShape GH.Route.file_content
      (.obj [("error", .str "无法显示 bin.dat 的内容，这可能是一个二进制文件")]) = false :=
  ⟨rfl, rfl, rfl⟩

/-- Claim C5 as amended: every JSON body returned by any endpoint of
either service is the endpoint success shape or a code/message error
object, with the single exception of the GitHub-style file_content
binary-rejection branch, whose body is an object with the single key
error. -/
theorem C5_amended :
    (∀ (env : GH.Env) (upstream : Upstream) (route : GH.Route) (req : Request),
      ghBodyOk route (GH.dispatch env upstream route req).out = true) ∧
    (∀ (env : Gitlab.Env) (upstream : Upstream) (route : Gitlab.Route) (req : Request),
      glBodyOk route (Gitlab.dispatch env upstream route req).out = true) := by
  constructor
  · intro env upstream route req
    cases route
    case pr_content => exact ghBodyOk_pr env upstream _ _
    case file_content => exact ghBodyOk_file env upstream _ _ _
    case issue_info => exact ghBodyOk_issue env upstream _ _
    case submit_pr_comment => exact ghBodyOk_submit env upstream _ _ _
    case repo_structure => exact ghBodyOk_repo env upstream _ _
  · intro env upstream route req
    cases route
    case mr_content => exact glBodyOk_mr env upstream _ _
    case file_content => exact glBodyOk_file env upstream _ _ _
    case issue_info => exact glBodyOk_issue env upstream _ _
    case submit_mr_comment => exact glBodyOk_submit env upstream _ _ _
    case repo_structure => exact glBodyOk_repo env upstream _ _

theorem C5_amended_witness :
    ghBodyOk GH.Route.file_content
      (GH.dispatch ghEnv0 oracleGhFile GH.Route.file_content noReq).out = true ∧
    glBodyOk Gitlab.Route.issue_info
      (Gitlab.dispatch glEnv0 oracle404 Gitlab.Route.issue_info noReq).out = true :=
  ⟨C5_amended.1 ghEnv0 oracleGhFile GH.Route.file_content noReq,
   C5_amended.2 glEnv0 oracle404 Gitlab.Route.issue_info noReq⟩
